import Mathlib

/-!
Verification of the salon/spa backend core: the tenant-aware model router
(`src/config/dbSelector.js`) and the appointment service
(`src/services/appointmentService.js`) with its staff-availability check,
modelled over the appointment schema (`src/models/Appointment.js`).

Conventions of the embedding:
* Mongo ObjectIds are `Nat`; instants are `Int` minutes; durations are `Nat` minutes.
* A Mongo collection is a `List` scanned in insertion order; `findOne` is `List.find?`.
* Async JS methods that can `throw` return `Except String`; methods that cannot
  return plain values.  `sendNotification` only writes to the console (and the
  rejected promise of an unawaited call does not reach the caller), so it has no
  counterpart here.
* The appointment schema declares the paths `tenantId`, `customerId`, `serviceIds`,
  `staffId`, `scheduledAt`, `status`, `createdAt`.  Mongoose strict mode discards
  any other path (`duration`, `cancelReason`) from saves and updates, and update
  operations do not run the `status` enum validator.
-/

/-- The two mongoose connections exported by `src/config/db.js`. -/
inductive Connection where
  | superAdminConnection
  | salonAdminConnection
deriving DecidableEq

/-- `SUPER_ADMIN_MODELS` from `src/config/dbSelector.js`. -/
def SUPER_ADMIN_MODELS : List String :=
  ["User", "Subscription", "Notification"]

/-- `SALON_ADMIN_MODELS` from `src/config/dbSelector.js`. -/
def SALON_ADMIN_MODELS : List String :=
  ["Salon", "Staff", "Customer", "Appointment", "Service", "Invoice",
   "Inventory", "Review", "Loyalty", "WalletTransaction"]

/-- `getConnection(modelName)` from `src/config/dbSelector.js`. -/
def getConnection (modelName : String) : Connection :=
  if SUPER_ADMIN_MODELS.contains modelName then
    Connection.superAdminConnection
  else if SALON_ADMIN_MODELS.contains modelName then
    Connection.salonAdminConnection
  else
    Connection.salonAdminConnection

/-- An appointment document, with the schema paths the service reads or writes
(`serviceIds` and `createdAt` never influence the modelled operations and are
omitted).  `status` is a plain `String`: `findOneAndUpdate` does not run the
schema's enum validator, so any string can reach the store. -/
structure Appointment where
  oid : Nat
  tenantId : Nat
  customerId : Nat
  staffId : Nat
  scheduledAt : Int
  status : String
deriving DecidableEq

/-- The persistent state the appointment service acts on: the `Appointment`
collection (in insertion order), the ids of existing `Staff` documents (the
`Staff` collection is only consulted by `getAvailableTimeSlots`, never by
`checkStaffAvailability`), and the next ObjectId mongoose will mint. -/
structure DB where
  appointments : List Appointment
  staffIds : List Nat
  nextId : Nat
deriving DecidableEq

/-- `addMinutes(start, duration)` (date-fns): shift an instant by whole minutes. -/
def addMinutes (start : Int) (duration : Nat) : Int :=
  start + duration

/-- The statuses the availability query treats as active:
`status: { $in: ["booked", "in-progress"] }`. -/
def activeStatuses : List String :=
  ["booked", "in-progress"]

/-- The filter of the `Appointment.findOne` query inside `checkStaffAvailability`:
same staff, `_id` different from the exclusion (with `$ne: null` matching every
document when no exclusion is given), stored start in `[start, end)`, active
status. -/
def overlapFilter (staffId : Nat) (startT endT : Int)
    (excludeAppointmentId : Option Nat) (a : Appointment) : Bool :=
  a.staffId == staffId &&
  some a.oid != excludeAppointmentId &&
  decide (startT ≤ a.scheduledAt) &&
  decide (a.scheduledAt < endT) &&
  activeStatuses.contains a.status

/-- `checkStaffAvailability(staffId, scheduledAt, duration = 60,
excludeAppointmentId = null)`: compute `end = addMinutes(start, duration)`,
look for one overlapping document, and report availability as its absence.
Callers that rely on the JS parameter default pass `60` explicitly here. -/
def checkStaffAvailability (db : DB) (staffId : Nat) (scheduledAt : Int)
    (duration : Nat) (excludeAppointmentId : Option Nat) : Bool :=
  let startT := scheduledAt
  let endT := addMinutes startT duration
  let overlapping :=
    db.appointments.find? (overlapFilter staffId startT endT excludeAppointmentId)
  overlapping.isNone

/-- JavaScript `x || d` on an optional number: both `undefined` and `0` are
falsy and fall back to the default. -/
def jsOrNat (x : Option Nat) (d : Nat) : Nat :=
  match x with
  | none => d
  | some v => if v = 0 then d else v

/-- The argument object of `createAppointment(data)`: the fields the service
reads.  `duration` is consumed only by the availability check; the schema has no
`duration` path, so it is never persisted. -/
structure AppointmentData where
  tenantId : Nat
  customerId : Nat
  staffId : Nat
  scheduledAt : Int
  duration : Option Nat
deriving DecidableEq

/-- `createAppointment(data)`: check availability with `data.duration || 60`,
throw when unavailable, otherwise save `{...data, status: "booked"}` (mongoose
mints the `_id`) and return the new document. -/
def createAppointment (db : DB) (data : AppointmentData) :
    Except String (DB × Appointment) :=
  let available :=
    checkStaffAvailability db data.staffId data.scheduledAt
      (jsOrNat data.duration 60) none
  if !available then
    Except.error "Staff not available at this time."
  else
    let appointment : Appointment :=
      { oid := db.nextId, tenantId := data.tenantId, customerId := data.customerId,
        staffId := data.staffId, scheduledAt := data.scheduledAt, status := "booked" }
    Except.ok
      ({ db with appointments := db.appointments ++ [appointment],
                 nextId := db.nextId + 1 },
       appointment)

/-- Replace the first element satisfying `pred` by its image under `f`
(how `findOneAndUpdate` touches exactly the matched document). -/
def replaceFirst (pred : Appointment → Bool) (f : Appointment → Appointment) :
    List Appointment → List Appointment
  | [] => []
  | x :: xs => if pred x then f x :: xs else x :: replaceFirst pred f xs

/-- Remove the first element satisfying `pred`
(how `findOneAndDelete` removes exactly the matched document). -/
def removeFirst (pred : Appointment → Bool) : List Appointment → List Appointment
  | [] => []
  | x :: xs => if pred x then xs else x :: removeFirst pred xs

/-- `Appointment.findOneAndUpdate(filter, update, { new: true })`: update the
first matching document in place and return the updated document, or return
`null` leaving the collection unchanged. -/
def findOneAndUpdateApp (db : DB) (pred : Appointment → Bool)
    (f : Appointment → Appointment) : DB × Option Appointment :=
  match db.appointments.find? pred with
  | none => (db, none)
  | some a =>
    ({ db with appointments := replaceFirst pred f db.appointments }, some (f a))

/-- The filter `{ _id: appointmentId, tenantId: salonId }` used by every
tenant-scoped appointment lookup. -/
def byIdAndTenant (appointmentId salonId : Nat) (a : Appointment) : Bool :=
  a.oid == appointmentId && a.tenantId == salonId

/-- `getAppointmentById(appointmentId, salonId)` (the `populate` calls only
decorate the result). -/
def getAppointmentById (db : DB) (appointmentId salonId : Nat) :
    Option Appointment :=
  db.appointments.find? (byIdAndTenant appointmentId salonId)

/-- The update object passed to `updateAppointment`: the fields the service
reads plus the schema paths an update can set.  `tenantId` is never part of the
documented update payloads; `duration` is read by the availability gate but,
not being a schema path, is discarded by the strict-mode update itself. -/
structure UpdateData where
  scheduledAt : Option Int
  staffId : Option Nat
  duration : Option Nat
  status : Option String
deriving DecidableEq

/-- Apply an update object to a document: `$set` of each present schema path. -/
def applyUpdate (u : UpdateData) (a : Appointment) : Appointment :=
  { a with
    scheduledAt := u.scheduledAt.getD a.scheduledAt,
    staffId := u.staffId.getD a.staffId,
    status := u.status.getD a.status }

/-- `updateAppointment(appointmentId, updateData, salonId)`: when the payload
carries both `scheduledAt` and `staffId` (both truthy), first check availability
with `updateData.duration || 60` excluding this appointment and throw when
unavailable; then run the tenant-scoped `findOneAndUpdate`. -/
def updateAppointment (db : DB) (appointmentId : Nat) (updateData : UpdateData)
    (salonId : Nat) : Except String (DB × Option Appointment) :=
  let gate :=
    match updateData.scheduledAt, updateData.staffId with
    | some t, some s =>
      checkStaffAvailability db s t (jsOrNat updateData.duration 60)
        (some appointmentId)
    | _, _ => true
  if !gate then
    Except.error "Staff not available at this time."
  else
    Except.ok
      (findOneAndUpdateApp db (byIdAndTenant appointmentId salonId)
        (applyUpdate updateData))

/-- `updateAppointmentStatus(appointmentId, status, salonId)`: tenant-scoped
`findOneAndUpdate` of `{ status }` — no validator runs, any string is stored. -/
def updateAppointmentStatus (db : DB) (appointmentId : Nat) (status : String)
    (salonId : Nat) : DB × Option Appointment :=
  findOneAndUpdateApp db (byIdAndTenant appointmentId salonId)
    (fun a => { a with status := status })

/-- `cancelAppointment(appointmentId, reason, salonId)`: sets
`{ status: "cancelled", cancelReason: reason }`; `cancelReason` is not a schema
path and is discarded by the strict-mode update. -/
def cancelAppointment (db : DB) (appointmentId : Nat) (salonId : Nat) :
    DB × Option Appointment :=
  findOneAndUpdateApp db (byIdAndTenant appointmentId salonId)
    (fun a => { a with status := "cancelled" })

/-- `deleteAppointment(appointmentId, salonId)`: tenant-scoped `findOneAndDelete`. -/
def deleteAppointment (db : DB) (appointmentId : Nat) (salonId : Nat) :
    DB × Option Appointment :=
  match db.appointments.find? (byIdAndTenant appointmentId salonId) with
  | none => (db, none)
  | some a =>
    ({ db with
        appointments := removeFirst (byIdAndTenant appointmentId salonId) db.appointments },
     some a)

/-- `handleNoShow(appointmentId, salonId)`: sets `{ status: "no-show" }`. -/
def handleNoShow (db : DB) (appointmentId : Nat) (salonId : Nat) :
    DB × Option Appointment :=
  findOneAndUpdateApp db (byIdAndTenant appointmentId salonId)
    (fun a => { a with status := "no-show" })

/-- `rescheduleAppointment(appointmentId, newScheduledAt, newStaffId, salonId)`:
find the tenant-scoped appointment (throw `"Appointment not found"` otherwise);
take `newStaffId || appointment.staffId`; check availability at the new time
excluding this appointment — `appointment.duration` is not a schema path, so it
is `undefined` and the JS parameter default `60` applies; throw when
unavailable; otherwise set the new time, staff, and `status: "rescheduled"`. -/
def rescheduleAppointment (db : DB) (appointmentId : Nat) (newScheduledAt : Int)
    (newStaffId : Option Nat) (salonId : Nat) :
    Except String (DB × Option Appointment) :=
  match db.appointments.find? (byIdAndTenant appointmentId salonId) with
  | none => Except.error "Appointment not found"
  | some appointment =>
    let staffId := newStaffId.getD appointment.staffId
    let available :=
      checkStaffAvailability db staffId newScheduledAt 60 (some appointmentId)
    if !available then
      Except.error "Staff not available at requested time"
    else
      Except.ok
        (findOneAndUpdateApp db (byIdAndTenant appointmentId salonId)
          (fun a =>
            { a with scheduledAt := newScheduledAt, staffId := staffId,
                     status := "rescheduled" }))

/-! ### Concrete fixtures used by evaluations and witnesses -/

/-- An empty store with one staff member (id 1) on file. -/
def dbEmpty : DB :=
  { appointments := [], staffIds := [1], nextId := 1 }

/-- A store holding one booked appointment for staff 1 at minute 600 (10:00). -/
def dbOneBooking : DB :=
  { appointments :=
      [{ oid := 1, tenantId := 1, customerId := 1, staffId := 1,
         scheduledAt := 600, status := "booked" }],
    staffIds := [1], nextId := 2 }

/-! ### Theorems -/

/-- C4: `getConnection` sends every name in the platform list to the
super-admin connection, every name in the tenant list to the salon-admin
connection, and any other string to the salon-admin connection by default;
being a total function, the lookup never fails. -/
theorem getConnection_partition (modelName : String) :
    (modelName ∈ SUPER_ADMIN_MODELS →
      getConnection modelName = Connection.superAdminConnection) ∧
    (modelName ∈ SALON_ADMIN_MODELS →
      getConnection modelName = Connection.salonAdminConnection) ∧
    (modelName ∉ SUPER_ADMIN_MODELS → modelName ∉ SALON_ADMIN_MODELS →
      getConnection modelName = Connection.salonAdminConnection) := by
  refine ⟨fun h => ?_, fun h => ?_, fun h1 h2 => ?_⟩
  · fin_cases h <;> rfl
  · fin_cases h <;> rfl
  · simp only [getConnection]
    rw [if_neg, if_neg] <;> simpa

/-- C4 witness: one representative of each of the three cases. -/
theorem getConnection_partition_witness :
    getConnection "User" = Connection.superAdminConnection ∧
    getConnection "Appointment" = Connection.salonAdminConnection ∧
    getConnection "GiftCard" = Connection.salonAdminConnection :=
  ⟨(getConnection_partition "User").1 (by simp [SUPER_ADMIN_MODELS]),
   (getConnection_partition "Appointment").2.1 (by simp [SALON_ADMIN_MODELS]),
   (getConnection_partition "GiftCard").2.2 (by simp [SUPER_ADMIN_MODELS])
     (by simp [SALON_ADMIN_MODELS])⟩

/-- The filter of the availability query, read back as a proposition. -/
theorem overlapFilter_iff (staffId : Nat) (startT endT : Int) (ex : Option Nat)
    (a : Appointment) :
    overlapFilter staffId startT endT ex a = true ↔
      (a.staffId = staffId ∧ some a.oid ≠ ex ∧ startT ≤ a.scheduledAt ∧
       a.scheduledAt < endT ∧ (a.status = "booked" ∨ a.status = "in-progress")) := by
  simp [overlapFilter, activeStatuses, and_assoc]

/-- C3: `checkStaffAvailability` returns true exactly when no stored
appointment has the given staff, an id different from the exclusion, a stored
start in the half-open window `[start, start + duration)`, and an active
status; cancelled and no-show documents, and the excluded id, never count. -/
theorem checkStaffAvailability_query_spec (db : DB) (staffId : Nat)
    (scheduledAt : Int) (duration : Nat) (excludeAppointmentId : Option Nat) :
    checkStaffAvailability db staffId scheduledAt duration excludeAppointmentId
        = true ↔
      ¬ ∃ a ∈ db.appointments,
          a.staffId = staffId ∧
          some a.oid ≠ excludeAppointmentId ∧
          scheduledAt ≤ a.scheduledAt ∧
          a.scheduledAt < scheduledAt + (duration : Int) ∧
          (a.status = "booked" ∨ a.status = "in-progress") := by
  simp only [checkStaffAvailability, addMinutes, Option.isNone_iff_eq_none,
    List.find?_eq_none, overlapFilter_iff]
  push_neg
  rfl

/-- C3 witness: on the empty store every slot reads available, through the
query characterisation. -/
theorem checkStaffAvailability_query_spec_witness :
    checkStaffAvailability dbEmpty 1 600 30 none = true :=
  (checkStaffAvailability_query_spec dbEmpty 1 600 30 none).mpr (by simp [dbEmpty])

/-- C1: evaluation of `checkStaffAvailability` against a staff member with one
booked appointment at 10:00 (minute 600) for 30 minutes.  The 10:00 and 10:45
queries behave as the claim states, but the 10:15 (minute 615) query returns
`true`: the stored start 600 does not lie in `[615, 645)`, so the half-open
check misses the overlap the symmetric contract would report. -/
theorem checkStaffAvailability_halfOpen_eval :
    checkStaffAvailability dbOneBooking 1 600 30 none = false ∧
    checkStaffAvailability dbOneBooking 1 645 30 none = true ∧
    checkStaffAvailability dbOneBooking 1 615 30 none = true := by
  decide

/-- Booking data: staff 1 at minute 600 for 120 minutes. -/
def longBooking : AppointmentData :=
  { tenantId := 1, customerId := 1, staffId := 1, scheduledAt := 600,
    duration := some 120 }

/-- Booking data: staff 1 at minute 630 for 30 minutes, inside the former. -/
def innerBooking : AppointmentData :=
  { tenantId := 1, customerId := 2, staffId := 1, scheduledAt := 630,
    duration := some 30 }

/-- The document `createAppointment` saves for `longBooking` on `dbEmpty`. -/
def appLong : Appointment :=
  { oid := 1, tenantId := 1, customerId := 1, staffId := 1, scheduledAt := 600,
    status := "booked" }

/-- The document `createAppointment` saves for `innerBooking` afterwards. -/
def appInner : Appointment :=
  { oid := 2, tenantId := 1, customerId := 2, staffId := 1, scheduledAt := 630,
    status := "booked" }

/-- The store after the first booking. -/
def dbLong : DB := { appointments := [appLong], staffIds := [1], nextId := 2 }

/-- The store after both bookings. -/
def dbDouble : DB :=
  { appointments := [appLong, appInner], staffIds := [1], nextId := 3 }

/-- C2: evaluation refuting the no-overlap invariant.  Booking staff 1 at
minute 600 for 120 minutes and then at minute 630 for 30 minutes both succeed —
the second availability check only looks for stored starts in `[630, 660)` and
misses the running 120-minute booking — leaving two stored appointments with
active status `"booked"`, the same staff, and overlapping intervals
`[600, 720)` and `[630, 660)`. -/
theorem createAppointment_overlap_eval :
    createAppointment dbEmpty longBooking = Except.ok (dbLong, appLong) ∧
    createAppointment dbLong innerBooking = Except.ok (dbDouble, appInner) ∧
    appLong.status ∈ activeStatuses ∧ appInner.status ∈ activeStatuses ∧
    appLong.staffId = appInner.staffId ∧
    appInner.scheduledAt < appLong.scheduledAt + 120 ∧
    appLong.scheduledAt < appInner.scheduledAt + 30 :=
  ⟨rfl, rfl, by decide, by decide, by decide, by decide, by decide⟩

/-- Booking data: staff 1 at minute 600 for 60 minutes. -/
def bookingData : AppointmentData :=
  { tenantId := 1, customerId := 1, staffId := 1, scheduledAt := 600,
    duration := some 60 }

/-- The document `createAppointment` saves for `bookingData` on `dbEmpty`. -/
def appBooked : Appointment :=
  { oid := 1, tenantId := 1, customerId := 1, staffId := 1, scheduledAt := 600,
    status := "booked" }

/-- The document after rescheduling `appBooked` to minute 1200. -/
def appResched : Appointment :=
  { oid := 1, tenantId := 1, customerId := 1, staffId := 1, scheduledAt := 1200,
    status := "rescheduled" }

/-- The store after the reschedule. -/
def dbResched : DB :=
  { appointments := [appResched], staffIds := [1], nextId := 2 }

/-- C6: evaluation of the book-then-reschedule round trip.  After booking staff
1 at minute 600 and rescheduling the appointment to the free minute 1200, the
old slot reads available as the claim states, but the new slot ALSO reads
available: the reschedule stores status `"rescheduled"`, which the availability
query's active set `{booked, in-progress}` excludes. -/
theorem reschedule_roundTrip_eval :
    createAppointment dbEmpty bookingData = Except.ok (dbOneBooking, appBooked) ∧
    rescheduleAppointment dbOneBooking 1 1200 none 1 =
      Except.ok (dbResched, some appResched) ∧
    checkStaffAvailability dbResched 1 600 60 none = true ∧
    checkStaffAvailability dbResched 1 1200 60 none = true :=
  ⟨rfl, rfl, by decide, by decide⟩

/-- A store with no staff on file at all. -/
def dbNoStaff : DB := { appointments := [], staffIds := [], nextId := 1 }

/-- C5 counterexample: staff id 42 resolves to no staff record, yet
`checkStaffAvailability` returns the availability result `true` instead of
signalling a NotFound error — the function never consults the Staff
collection. -/
theorem phantom_staff_counterexample :
    (42 ∈ dbNoStaff.staffIds → False) ∧
    checkStaffAvailability dbNoStaff 42 600 30 none = true := by
  decide

/-- C5 amended: `checkStaffAvailability` performs no staff lookup and never
signals NotFound; its result is unchanged under any replacement of the Staff
collection, and for a staff id with no stored appointments — a phantom staff
member in particular — it returns `true`. -/
theorem checkStaffAvailability_no_staff_lookup (db : DB) (l : List Nat)
    (staffId : Nat) (t : Int) (d : Nat) (ex : Option Nat)
    (h : ∀ a ∈ db.appointments, a.staffId ≠ staffId) :
    checkStaffAvailability { db with staffIds := l } staffId t d ex =
      checkStaffAvailability db staffId t d ex ∧
    checkStaffAvailability db staffId t d ex = true := by
  refine ⟨rfl, ?_⟩
  simp only [checkStaffAvailability, addMinutes, Option.isNone_iff_eq_none,
    List.find?_eq_none]
  intro a ha
  rw [overlapFilter_iff]
  rintro ⟨h1, -⟩
  exact h a ha h1

/-- C5 witness: the amended statement at the concrete phantom staff 42. -/
theorem checkStaffAvailability_no_staff_lookup_witness :
    checkStaffAvailability { dbNoStaff with staffIds := [7] } 42 600 30 none =
      checkStaffAvailability dbNoStaff 42 600 30 none ∧
    checkStaffAvailability dbNoStaff 42 600 30 none = true :=
  checkStaffAvailability_no_staff_lookup dbNoStaff [7] 42 600 30 none
    (by decide)

/-- C7: `createAppointment` throws exactly when the availability check on
`data.duration || 60` fails; on success the saved document has status
`"booked"` and is appended to the collection, which is otherwise untouched
(on a throw, no state is produced at all). -/
theorem createAppointment_conflict_spec (db : DB) (data : AppointmentData) :
    ((∃ e, createAppointment db data = Except.error e) ↔
      checkStaffAvailability db data.staffId data.scheduledAt
        (jsOrNat data.duration 60) none = false) ∧
    (∀ db2 a, createAppointment db data = Except.ok (db2, a) →
      a.status = "booked" ∧ db2.appointments = db.appointments ++ [a] ∧
      db2.staffIds = db.staffIds) := by
  unfold createAppointment
  rcases hc : checkStaffAvailability db data.staffId data.scheduledAt
      (jsOrNat data.duration 60) none <;>
    simp [hc]

/-- C7 witness: the success case at a concrete booking. -/
theorem createAppointment_conflict_spec_witness :
    appBooked.status = "booked" ∧
    dbOneBooking.appointments = dbEmpty.appointments ++ [appBooked] ∧
    dbOneBooking.staffIds = dbEmpty.staffIds :=
  (createAppointment_conflict_spec dbEmpty bookingData).2 dbOneBooking appBooked
    rfl

/-- The closed status set named by the specification. -/
def statusSet : List String :=
  ["booked", "completed", "cancelled", "no-show", "rescheduled", "in-progress"]

/-- C8 counterexample: `updateAppointmentStatus` runs no validator, so a
caller-supplied status outside the closed set is stored verbatim. -/
theorem updateAppointmentStatus_escapes_enum :
    ((updateAppointmentStatus dbOneBooking 1 "vip-hold" 1).1.appointments.map
        Appointment.status) = ["vip-hold"] ∧
    ("vip-hold" ∈ statusSet → False) := by
  decide

/-- Every element of `replaceFirst pred f l` is an element of `l` or the image
under `f` of one. -/
theorem mem_replaceFirst {pred : Appointment → Bool} {f : Appointment → Appointment}
    {l : List Appointment} {b : Appointment} (hb : b ∈ replaceFirst pred f l) :
    b ∈ l ∨ ∃ a, a ∈ l ∧ b = f a := by
  induction l with
  | nil => simp [replaceFirst] at hb
  | cons x xs ih =>
    rw [replaceFirst] at hb
    by_cases hx : pred x = true
    · rw [if_pos hx] at hb
      rcases List.mem_cons.mp hb with h | h
      · exact Or.inr ⟨x, List.mem_cons_self x xs, h⟩
      · exact Or.inl (List.mem_cons_of_mem x h)
    · rw [if_neg hx] at hb
      rcases List.mem_cons.mp hb with h | h
      · exact Or.inl (h ▸ List.mem_cons_self x xs)
      · rcases ih h with h2 | ⟨a, ha, hba⟩
        · exact Or.inl (List.mem_cons_of_mem x h2)
        · exact Or.inr ⟨a, List.mem_cons_of_mem x ha, hba⟩

/-- A `findOneAndUpdate` whose update writes statuses inside the closed set
keeps every stored status inside the closed set. -/
theorem findOneAndUpdateApp_statusSet (db : DB) (pred : Appointment → Bool)
    (f : Appointment → Appointment)
    (hdb : ∀ a ∈ db.appointments, a.status ∈ statusSet)
    (hf : ∀ a, (f a).status ∈ statusSet) :
    ∀ b ∈ (findOneAndUpdateApp db pred f).1.appointments, b.status ∈ statusSet := by
  unfold findOneAndUpdateApp
  cases h : db.appointments.find? pred with
  | none => simpa using hdb
  | some a =>
    intro b hb
    simp only at hb
    rcases mem_replaceFirst hb with h2 | ⟨c, _, rfl⟩
    · exact hdb b h2
    · exact hf c

/-- C8 amended: the operations that write fixed statuses — `createAppointment`
(`"booked"`), `cancelAppointment` (`"cancelled"`), `handleNoShow`
(`"no-show"`), `rescheduleAppointment` (`"rescheduled"`) — keep every stored
status inside the closed set (even though `"no-show"`, `"rescheduled"` and
`"in-progress"` lie outside the schema's declared enum
`{booked, completed, cancelled}`, which update operations bypass);
`updateAppointmentStatus` preserves the set only when the caller-supplied
status itself belongs to it. -/
theorem fixed_status_writes_stay_in_statusSet (db : DB) (data : AppointmentData)
    (appointmentId salonId : Nat) (t : Int) (ns : Option Nat) (s : String)
    (hdb : ∀ a ∈ db.appointments, a.status ∈ statusSet) :
    (∀ db2 a, createAppointment db data = Except.ok (db2, a) →
      ∀ b ∈ db2.appointments, b.status ∈ statusSet) ∧
    (∀ b ∈ (cancelAppointment db appointmentId salonId).1.appointments,
      b.status ∈ statusSet) ∧
    (∀ b ∈ (handleNoShow db appointmentId salonId).1.appointments,
      b.status ∈ statusSet) ∧
    (∀ db2 r, rescheduleAppointment db appointmentId t ns salonId =
        Except.ok (db2, r) →
      ∀ b ∈ db2.appointments, b.status ∈ statusSet) ∧
    (s ∈ statusSet →
      ∀ b ∈ (updateAppointmentStatus db appointmentId s salonId).1.appointments,
        b.status ∈ statusSet) := by
  refine ⟨?_, ?_, ?_, ?_, ?_⟩
  · unfold createAppointment
    rcases hc : checkStaffAvailability db data.staffId data.scheduledAt
        (jsOrNat data.duration 60) none <;> simp [hc]
    intro b hb
    rcases hb with h2 | rfl
    · exact hdb b h2
    · exact (by decide : ("booked" : String) ∈ statusSet)
  · exact findOneAndUpdateApp_statusSet db _ _ hdb
      (fun a => (by decide : ("cancelled" : String) ∈ statusSet))
  · exact findOneAndUpdateApp_statusSet db _ _ hdb
      (fun a => (by decide : ("no-show" : String) ∈ statusSet))
  · unfold rescheduleAppointment
    cases hfind : db.appointments.find? (byIdAndTenant appointmentId salonId) with
    | none => simp
    | some appointment =>
      rcases hc : checkStaffAvailability db (ns.getD appointment.staffId) t 60
          (some appointmentId) <;> simp [hc]
      intro db2 r hdb2 b hb
      have h1 : _ = db2 := congrArg Prod.fst hdb2
      subst h1
      exact findOneAndUpdateApp_statusSet db _ _ hdb
        (fun a => (by decide : ("rescheduled" : String) ∈ statusSet)) b hb
  · intro hs
    exact findOneAndUpdateApp_statusSet db _ _ hdb
      (fun a => by simpa using hs)

/-- The document stored after cancelling the single booking of `dbOneBooking`. -/
def appCancelled : Appointment :=
  { oid := 1, tenantId := 1, customerId := 1, staffId := 1, scheduledAt := 600,
    status := "cancelled" }

/-- C8 witness: the cancellation conjunct at a concrete store. -/
theorem fixed_status_writes_stay_in_statusSet_witness :
    appCancelled.status ∈ statusSet :=
  (fixed_status_writes_stay_in_statusSet dbOneBooking bookingData 1 1 1200 none
      "completed" (by decide)).2.1 appCancelled (by decide)

/-- Replacing a document matched by a tenant-scoped filter with a same-tenant
update leaves the documents of every other tenant untouched. -/
theorem filter_replaceFirst (salonId : Nat) (pred : Appointment → Bool)
    (f : Appointment → Appointment)
    (hpred : ∀ a, pred a = true → a.tenantId = salonId)
    (hf : ∀ a, (f a).tenantId = a.tenantId) (l : List Appointment) :
    (replaceFirst pred f l).filter (fun a => a.tenantId != salonId) =
      l.filter (fun a => a.tenantId != salonId) := by
  induction l with
  | nil => rfl
  | cons x xs ih =>
    rw [replaceFirst]
    by_cases hx : pred x = true
    · rw [if_pos hx, List.filter_cons, List.filter_cons]
      simp [hf x, hpred x hx]
    · rw [if_neg hx, List.filter_cons, List.filter_cons, ih]

/-- Removing a document matched by a tenant-scoped filter leaves the documents
of every other tenant untouched. -/
theorem filter_removeFirst (salonId : Nat) (pred : Appointment → Bool)
    (hpred : ∀ a, pred a = true → a.tenantId = salonId) (l : List Appointment) :
    (removeFirst pred l).filter (fun a => a.tenantId != salonId) =
      l.filter (fun a => a.tenantId != salonId) := by
  induction l with
  | nil => rfl
  | cons x xs ih =>
    rw [removeFirst]
    by_cases hx : pred x = true
    · rw [if_pos hx, List.filter_cons]
      simp [hpred x hx]
    · rw [if_neg hx, List.filter_cons, List.filter_cons, ih]

/-- A tenant-scoped `findOneAndUpdate` whose update keeps `tenantId` fixed
leaves the documents of every other tenant untouched. -/
theorem findOneAndUpdateApp_tenant_filter (db : DB) (appointmentId salonId : Nat)
    (f : Appointment → Appointment) (hf : ∀ a, (f a).tenantId = a.tenantId) :
    ((findOneAndUpdateApp db (byIdAndTenant appointmentId salonId) f).1.appointments.filter
        (fun a => a.tenantId != salonId)) =
      db.appointments.filter (fun a => a.tenantId != salonId) := by
  unfold findOneAndUpdateApp
  cases h : db.appointments.find? (byIdAndTenant appointmentId salonId) with
  | none => rfl
  | some a =>
    exact filter_replaceFirst salonId _ f
      (fun b hb => by
        simp only [byIdAndTenant, Bool.and_eq_true, beq_iff_eq] at hb
        exact hb.2)
      hf db.appointments

/-- An appointment of tenant 2 in a store that also holds tenant 1's booking
`appBooked` of staff 1 at minute 600. -/
def appCross : Appointment :=
  { oid := 2, tenantId := 2, customerId := 3, staffId := 7, scheduledAt := 900,
    status := "booked" }

/-- A store with one appointment of each tenant. -/
def dbTwoTenants : DB :=
  { appointments := [appBooked, appCross], staffIds := [1, 7], nextId := 3 }

/-- An update payload moving an appointment onto staff 1's occupied minute 600. -/
def crossUpdate : UpdateData :=
  { scheduledAt := some 600, staffId := some 1, duration := none, status := none }

/-- C9 counterexample: appointment 2 belongs to tenant 2, yet `updateAppointment`
called with salon 1 throws the availability error instead of returning null:
the availability gate runs before the tenant-scoped lookup and trips over
tenant 1's booking. -/
theorem updateAppointment_wrong_tenant_throws :
    (∀ a ∈ dbTwoTenants.appointments, a.oid = 2 → a.tenantId ≠ 1) ∧
    updateAppointment dbTwoTenants 2 crossUpdate 1 =
      Except.error "Staff not available at this time." :=
  ⟨by decide, rfl⟩

/-- C9 amended: each tenant-scoped operation reads, modifies, or deletes only
appointments whose `tenantId` equals the given salon — the documents of every
other tenant are untouched — and when the target appointment belongs to a
different tenant (or does not exist) the store is unchanged and the operation
returns null, except `updateAppointment`, which can instead throw the
availability error when its payload carries both `scheduledAt` and `staffId`. -/
theorem tenant_isolation (db : DB) (appointmentId salonId : Nat)
    (u : UpdateData) (s : String) :
    (∀ a, getAppointmentById db appointmentId salonId = some a →
      a.tenantId = salonId) ∧
    ((∀ a ∈ db.appointments, ¬(a.oid = appointmentId ∧ a.tenantId = salonId)) →
      getAppointmentById db appointmentId salonId = none ∧
      updateAppointmentStatus db appointmentId s salonId = (db, none) ∧
      cancelAppointment db appointmentId salonId = (db, none) ∧
      handleNoShow db appointmentId salonId = (db, none) ∧
      deleteAppointment db appointmentId salonId = (db, none) ∧
      (updateAppointment db appointmentId u salonId =
          Except.error "Staff not available at this time." ∨
        updateAppointment db appointmentId u salonId = Except.ok (db, none))) ∧
    ((updateAppointmentStatus db appointmentId s salonId).1.appointments.filter
        (fun a => a.tenantId != salonId) =
      db.appointments.filter (fun a => a.tenantId != salonId)) ∧
    ((cancelAppointment db appointmentId salonId).1.appointments.filter
        (fun a => a.tenantId != salonId) =
      db.appointments.filter (fun a => a.tenantId != salonId)) ∧
    ((handleNoShow db appointmentId salonId).1.appointments.filter
        (fun a => a.tenantId != salonId) =
      db.appointments.filter (fun a => a.tenantId != salonId)) ∧
    ((deleteAppointment db appointmentId salonId).1.appointments.filter
        (fun a => a.tenantId != salonId) =
      db.appointments.filter (fun a => a.tenantId != salonId)) ∧
    (∀ db2 r, updateAppointment db appointmentId u salonId = Except.ok (db2, r) →
      db2.appointments.filter (fun a => a.tenantId != salonId) =
        db.appointments.filter (fun a => a.tenantId != salonId)) := by
  refine ⟨?_, ?_, ?_, ?_, ?_, ?_, ?_⟩
  · intro a ha
    have h2 := List.find?_some ha
    simp only [byIdAndTenant, Bool.and_eq_true, beq_iff_eq] at h2
    exact h2.2
  · intro h
    have hnone : db.appointments.find? (byIdAndTenant appointmentId salonId) = none := by
      rw [List.find?_eq_none]
      intro a ha
      simpa [byIdAndTenant] using h a ha
    refine ⟨hnone, ?_, ?_, ?_, ?_, ?_⟩
    · simp [updateAppointmentStatus, findOneAndUpdateApp, hnone]
    · simp [cancelAppointment, findOneAndUpdateApp, hnone]
    · simp [handleNoShow, findOneAndUpdateApp, hnone]
    · simp [deleteAppointment, hnone]
    · rcases hsch : u.scheduledAt with _ | t2
      · right; simp [updateAppointment, hsch, findOneAndUpdateApp, hnone]
      · rcases hst : u.staffId with _ | s2
        · right; simp [updateAppointment, hsch, hst, findOneAndUpdateApp, hnone]
        · rcases hg : checkStaffAvailability db s2 t2 (jsOrNat u.duration 60)
              (some appointmentId)
          · left; simp [updateAppointment, hsch, hst, hg]
          · right; simp [updateAppointment, hsch, hst, hg, findOneAndUpdateApp, hnone]
  · exact findOneAndUpdateApp_tenant_filter db appointmentId salonId _ (fun a => rfl)
  · exact findOneAndUpdateApp_tenant_filter db appointmentId salonId _ (fun a => rfl)
  · exact findOneAndUpdateApp_tenant_filter db appointmentId salonId _ (fun a => rfl)
  · unfold deleteAppointment
    cases hfind : db.appointments.find? (byIdAndTenant appointmentId salonId) with
    | none => rfl
    | some a =>
      exact filter_removeFirst salonId _
        (fun b hb => by
          simp only [byIdAndTenant, Bool.and_eq_true, beq_iff_eq] at hb
          exact hb.2)
        db.appointments
  · intro db2 r h2
    rcases hsch : u.scheduledAt with _ | t2
    · simp [updateAppointment, hsch] at h2
      have h1 : _ = db2 := congrArg Prod.fst h2
      subst h1
      exact findOneAndUpdateApp_tenant_filter db appointmentId salonId _ (fun a => rfl)
    · rcases hst : u.staffId with _ | s2
      · simp [updateAppointment, hsch, hst] at h2
        have h1 : _ = db2 := congrArg Prod.fst h2
        subst h1
        exact findOneAndUpdateApp_tenant_filter db appointmentId salonId _ (fun a => rfl)
      · rcases hg : checkStaffAvailability db s2 t2 (jsOrNat u.duration 60)
            (some appointmentId)
        · simp [updateAppointment, hsch, hst, hg] at h2
        · simp [updateAppointment, hsch, hst, hg] at h2
          have h1 : _ = db2 := congrArg Prod.fst h2
          subst h1
          exact findOneAndUpdateApp_tenant_filter db appointmentId salonId _ (fun a => rfl)

/-- C9 witness: no appointment 2 scoped to salon 1 exists in `dbOneBooking`,
so the lookup returns null and the status update is a no-op. -/
theorem tenant_isolation_witness :
    getAppointmentById dbOneBooking 2 1 = none ∧
    updateAppointmentStatus dbOneBooking 2 "completed" 1 = (dbOneBooking, none) := by
  have h := (tenant_isolation dbOneBooking 2 1 crossUpdate "completed").2.1
    (by decide)
  exact ⟨h.1, h.2.1⟩

/-- C10: the availability gate in `updateAppointment` runs only when the
payload carries both `scheduledAt` and `staffId`; with either missing, the
tenant-scoped update is applied unconditionally and the call never throws. -/
theorem updateAppointment_gate_requires_both (db : DB) (appointmentId : Nat)
    (u : UpdateData) (salonId : Nat)
    (h : u.scheduledAt = none ∨ u.staffId = none) :
    updateAppointment db appointmentId u salonId =
      Except.ok (findOneAndUpdateApp db (byIdAndTenant appointmentId salonId)
        (applyUpdate u)) := by
  unfold updateAppointment
  rcases h with h | h
  · simp [h]
  · rcases hs : u.scheduledAt with _ | t <;> simp [h, hs]

/-- An update payload that changes only the scheduled time. -/
def timeOnlyUpdate : UpdateData :=
  { scheduledAt := some 900, staffId := none, duration := none, status := none }

/-- C10 witness: moving the single booking's time without a staff id is applied
without any availability check. -/
theorem updateAppointment_gate_requires_both_witness :
    updateAppointment dbOneBooking 1 timeOnlyUpdate 1 =
      Except.ok (findOneAndUpdateApp dbOneBooking (byIdAndTenant 1 1)
        (applyUpdate timeOnlyUpdate)) :=
  updateAppointment_gate_requires_both dbOneBooking 1 timeOnlyUpdate 1
    (Or.inr rfl)
